import Mathlib

/-!
A verification development for the package resolution engine of
`util/mirrors.go` (obshell-sdk-go): the repomd data model, query
filtering, multi-key version ranking with the LSE tie-break, the
single-mirror search/download entry points and the multi-mirror
fallback loop.

External effects are made explicit:
* network fetches enter as `Except String body` values (transport error or body);
* the filesystem is an oracle record `FS` describing what the stat,
  directory-creation and file-write calls would report;
* a Go runtime panic (index out of range, nil dereference) is `Option.none`.
-/

namespace ObMirrors

/-- Embeds `Location` from mirrors.go: optional base-URL override plus href. -/
structure Location where
  BaseUrl : String
  Href : String
  deriving DecidableEq

/-- Embeds `PackageEntry`: a provides/requires capability entry, also used as the query type. -/
structure PackageEntry where
  Name : String
  Flags : String
  Epoch : String
  Version : String
  Release : String
  deriving DecidableEq

/-- Embeds `packageVersion`: the epoch/ver/rel attribute triple. -/
structure packageVersion where
  Epoch : String
  Version : String
  Release : String
  deriving DecidableEq

/-- Embeds `packageFormat`; only the capability lists matter to the
resolution logic (license, vendor, group, build host, source rpm, header
range and the file list are inert metadata). -/
structure packageFormat where
  Provides : List PackageEntry
  Requires : List PackageEntry
  deriving DecidableEq

/-- Embeds `packageInfo`; the inert metadata fields (packager, url, time,
size) are omitted. -/
structure packageInfo where
  Name : String
  Arch : String
  Version : packageVersion
  Location : Location
  Format : packageFormat
  deriving DecidableEq

/-- Embeds `primaryData`: the decoded primary index. -/
structure primaryData where
  Packages : List packageInfo
  deriving DecidableEq

/-- Embeds `repoData`: one typed entry of the top-level descriptor
(`Typ` is the XML `type` attribute; `Type` is reserved in Lean). -/
structure repoData where
  Typ : String
  Location : Location
  Timestamp : Int
  Size : Int
  OpenSize : Int
  DatabaseVersion : Int
  deriving DecidableEq

/-- Embeds `repoMD`: the decoded top-level descriptor. -/
structure repoMD where
  Revision : String
  Data : List repoData
  deriving DecidableEq

/-- Embeds `Mirror`. -/
structure Mirror where
  name : String
  url : String
  arch : String
  nonLse : Bool
  deriving DecidableEq

/-- Embeds the constant `X86_64`. -/
def X86_64 : String := "x86_64"

/-- Embeds the constant `AARCH64`. -/
def AARCH64 : String := "aarch64"

/-- Embeds the constant `NONLSE`, the LSE-variant marker searched for in
release strings. -/
def NONLSE : String := "nonlse"

/-- `segmentsAux cs acc` splits a character stream into maximal
alphanumeric runs; `acc` holds the current run reversed. -/
def segmentsAux : List Char → List Char → List String
  | [], acc => if acc.isEmpty then [] else [String.mk acc.reverse]
  | c :: cs, acc =>
    if c.isAlphanum then segmentsAux cs (c :: acc)
    else if acc.isEmpty then segmentsAux cs []
    else String.mk acc.reverse :: segmentsAux cs []

/-- Splits a version string on non-alphanumeric boundaries. -/
def splitSegments (s : String) : List String := segmentsAux s.toList []

/-- True when the segment is non-empty and all digits. -/
def allDigits (s : String) : Bool := !s.isEmpty && s.toList.all Char.isDigit

/-- Numeric value of an all-digit segment. -/
def digitsVal (s : String) : Nat := s.toList.foldl (fun n c => n * 10 + (c.toNat - 48)) 0

/-- Three-way comparison on naturals, as a sign. -/
def cmpNat (a b : Nat) : Int := if a < b then -1 else if b < a then 1 else 0

/-- Three-way lexicographic comparison on strings, as a sign. -/
def cmpLex (a b : String) : Int := if a < b then -1 else if b < a then 1 else 0

/-- One aligned pair of segments: numeric when both are all digits,
lexicographic otherwise. -/
def cmpSegment (a b : String) : Int :=
  if allDigits a && allDigits b then cmpNat (digitsVal a) (digitsVal b) else cmpLex a b

/-- Aligned comparison of two segment lists; a list that runs out first is
the smaller one, equal-length lists compare pointwise. -/
def cmpSegments : List String → List String → Int
  | [], [] => 0
  | [], _ :: _ => -1
  | _ :: _, [] => 1
  | a :: as, b :: bs =>
    let c := cmpSegment a b
    if c = 0 then cmpSegments as bs else c

/-- Modelled from the spec: `util.CmpVersionString` lives in the
repository's internal `util` package, which is not under `src/`.  Spec
§4.1: segments are split on non-alphanumeric boundaries; an aligned pair
of segments compares numerically when both are all digits and
lexicographically otherwise; empty strings compare equal.  Positive sign
means the first argument is newer/greater. -/
def CmpVersionString (a b : String) : Int := cmpSegments (splitSegments a) (splitSegments b)

/-- `leadMatch s pat` holds when `pat` occurs at the very start of `s`. -/
def leadMatch : List Char → List Char → Bool
  | _, [] => true
  | [], _ :: _ => false
  | a :: as, b :: bs => a == b && leadMatch as bs

/-- Scan for the first occurrence of `pat`, counting from position `i`. -/
def strIndexAux (pat : List Char) : List Char → Nat → Int
  | [], i => if leadMatch [] pat then (i : Int) else -1
  | c :: t, i => if leadMatch (c :: t) pat then (i : Int) else strIndexAux pat t (i + 1)

/-- Embeds Go `strings.Index`: position of the first occurrence of `sub`
in `s`, or `-1` when absent (character positions; the strings involved
here are ASCII, so this agrees with Go byte positions). -/
def strIndex (s sub : String) : Int := strIndexAux sub.toList s.toList 0

/-- Embeds Go `strings.Split(s, ".")[0]`: the leading dot-delimited
segment (the whole string when no dot occurs). -/
def headSegment (s : String) : String := String.mk (s.toList.takeWhile (fun c => c != '.'))

/-- Embeds the comparison closure passed to `sort.Slice` in
`Mirror.sortPackages` (mirrors.go lines 380-401): epoch, then version,
then the leading dot segment of release, each by `CmpVersionString` with
the greater side first; on a full tie the LSE marker position decides
according to the mirror's `nonLse` preference and architecture. -/
def Mirror.sortLess (m : Mirror) (p q : packageInfo) : Bool :=
  let valE := CmpVersionString p.Version.Epoch q.Version.Epoch
  if valE ≠ 0 then decide (0 < valE)
  else
    let valV := CmpVersionString p.Version.Version q.Version.Version
    if valV ≠ 0 then decide (0 < valV)
    else
      let valR := CmpVersionString (headSegment p.Version.Release) (headSegment q.Version.Release)
      if valR ≠ 0 then decide (0 < valR)
      else if m.nonLse then decide (strIndex q.Version.Release NONLSE < strIndex p.Version.Release NONLSE)
      else if m.arch = AARCH64 then decide (strIndex p.Version.Release NONLSE < strIndex q.Version.Release NONLSE)
      else true

/-- The tie-break tail of the `sort.Slice` closure (mirrors.go lines
393-399), stated on its own so the ranking cascade can refer to it. -/
def lseTieBreak (m : Mirror) (p q : packageInfo) : Bool :=
  if m.nonLse then decide (strIndex q.Version.Release NONLSE < strIndex p.Version.Release NONLSE)
  else if m.arch = AARCH64 then decide (strIndex p.Version.Release NONLSE < strIndex q.Version.Release NONLSE)
  else true

/-- Insert an element in front of the first list element it compares
`le`-before. -/
def insertLe (le : α → α → Bool) (a : α) : List α → List α
  | [] => [a]
  | b :: t => if le a b then a :: b :: t else b :: insertLe le a t

/-- Comparison sort by a boolean relation. -/
def sortByLe (le : α → α → Bool) : List α → List α
  | [] => []
  | a :: t => insertLe le a (sortByLe le t)

/-- Embeds `Mirror.sortPackages`: Go sorts the slice in place with
`sort.Slice` driven by the closure above; modelled as a comparison sort
of the list by the same closure. -/
def Mirror.sortPackages (m : Mirror) (packages : List packageInfo) : List packageInfo :=
  sortByLe m.sortLess packages

/-- The epoch/version/release part of the filter in `Mirror.search`
(mirrors.go lines 364-372): an empty query field constrains nothing, a
non-empty one must match exactly. -/
def matchEVR (entry : PackageEntry) (pkg : packageInfo) : Bool :=
  if entry.Epoch ≠ "" ∧ entry.Epoch ≠ pkg.Version.Epoch then false
  else if entry.Version ≠ "" ∧ entry.Version ≠ pkg.Version.Version then false
  else if entry.Release ≠ "" ∧ entry.Release ≠ pkg.Version.Release then false
  else true

/-- One loop iteration of the filter in `Mirror.search` (mirrors.go lines
359-374).  `some true` = keep, `some false` = skip, `none` = the Go code
evaluates `pkg.Format.Provides[0]` on an empty slice and panics (it does
so exactly when the query flag is non-empty, by short-circuit of `&&`). -/
def keepRecord (entry : PackageEntry) (pkg : packageInfo) : Option Bool :=
  if pkg.Name = entry.Name then
    if entry.Flags ≠ "" then
      match pkg.Format.Provides.head? with
      | none => none
      | some p0 => if entry.Flags ≠ p0.Flags then some false else some (matchEVR entry pkg)
    else some (matchEVR entry pkg)
  else some false

/-- The filter loop of `Mirror.search` over the whole index, in order;
`none` when any examined record panics. -/
def filterPackages (entry : PackageEntry) : List packageInfo → Option (List packageInfo)
  | [] => some []
  | pkg :: rest =>
    match keepRecord entry pkg with
    | none => none
    | some b =>
      match filterPackages entry rest with
      | none => none
      | some tail => some (if b then pkg :: tail else tail)

/-- The `fmt.Errorf("no such package: %s-%s-%s", ...)` message used by
`Mirror.Search`, `SearchPackage` and `DownloadPackage`. -/
def noSuchPackage (entry : PackageEntry) : String :=
  "no such package: " ++ entry.Name ++ "-" ++ entry.Version ++ "-" ++ entry.Release

/-- Embeds `Mirror.search` (mirrors.go lines 348-378).  The network round
trip of `getRepoPrimary` enters as `fetch`: a transport/decode error or
the decoded primary index.  Result `none` models a panic inside the
filter loop. -/
def Mirror.search (m : Mirror) (fetch : Except String primaryData) (entry : PackageEntry) :
    Option (Except String (List packageInfo)) :=
  if entry.Name = "" then some (.error "package name is empty")
  else
    match fetch with
    | .error e => some (.error e)
    | .ok packages =>
      match filterPackages entry packages.Packages with
      | none => none
      | some kept => some (.ok (m.sortPackages kept))

/-- Embeds the exported `Mirror.Search` (mirrors.go lines 338-346): an
empty filtered result becomes a "no such package" error. -/
def Mirror.Search (m : Mirror) (fetch : Except String primaryData) (entry : PackageEntry) :
    Option (Except String (List packageInfo)) :=
  match m.search fetch entry with
  | none => none
  | some (.error e) => some (.error e)
  | some (.ok l) => if l.length = 0 then some (.error (noSuchPackage entry)) else some (.ok l)

/-- What the stat call on the destination reports; Go's `os.IsNotExist`
recognises only the `notExist` case. -/
inductive StatErr where
  | notExist
  | other (msg : String)
  deriving DecidableEq

/-- The message carried by a stat error. -/
def StatErr.msg : StatErr → String
  | .notExist => "file does not exist"
  | .other m => m

/-- Embeds Go `os.IsNotExist` applied to the error slot of a stat result. -/
def isNotExist : Option StatErr → Bool
  | some .notExist => true
  | _ => false

/-- The file info returned by a successful stat. -/
structure FileInfo where
  isDir : Bool
  deriving DecidableEq

/-- Filesystem oracle for one `downloadPackage` call: the pair returned by
`os.Stat(destDir)` (Go convention: on error the info is nil), the error of
`os.MkdirAll` if any, and the error of the final file write if any. -/
structure FS where
  stat : Option FileInfo × Option StatErr
  mkdirAll : Option String
  write : Option String
  deriving DecidableEq

/-- Models `url.JoinPath` (stdlib) as plain slash joining; the error it
can return on an unparsable base never fires on the URLs involved here. -/
def joinUrl (base p : String) : String := base ++ "/" ++ p

/-- Embeds `Mirror.getLocalUrl` (mirrors.go lines 246-252): the record's
own base URL takes precedence over the mirror base URL. -/
def Mirror.getLocalUrl (m : Mirror) (location : Location) : String :=
  if location.BaseUrl ≠ "" then joinUrl location.BaseUrl location.Href
  else joinUrl m.url location.Href

/-- Models `filepath.IsAbs` on Linux: the path starts with a slash. -/
def isAbs (p : String) : Bool :=
  match p.toList with
  | [] => false
  | c :: _ => c == '/'

/-- Models `filepath.Base` for the hrefs that occur here: the part after
the last slash. -/
def baseName (p : String) : String :=
  String.mk ((p.toList.reverse.takeWhile (fun c => c != '/')).reverse)

/-- Embeds `Mirror.downloadPackage` (mirrors.go lines 291-323).  `af` is
the artifact fetch (transport error or body).  `none` models the nil
dereference `stat.IsDir()` that Go performs when `os.Stat` failed with an
error that is not not-exist (the info is nil then). -/
def Mirror.downloadPackage (m : Mirror) (fs : FS) (af : Except String String)
    (pkg : packageInfo) (destDir : String) : Option (Except String String) :=
  if ¬ isAbs destDir then some (.error ("destination is not an absolute path: " ++ destDir))
  else
    let stat := fs.stat.1
    let err := fs.stat.2
    let rest : Option (Except String String) :=
      let _url := m.getLocalUrl pkg.Location
      match af with
      | .error e => some (.error e)
      | .ok _body =>
        match fs.write with
        | some e => some (.error e)
        | none => some (.ok (destDir ++ "/" ++ baseName pkg.Location.Href))
    if isNotExist err then
      match fs.mkdirAll with
      | some e => some (.error e)
      | none => rest
    else
      match stat with
      | none => none
      | some st =>
        if ¬ st.isDir then some (.error ("destination is not a directory: " ++ destDir))
        else
          match err with
          | some e => some (.error e.msg)
          | none => rest

/-- Embeds the exported `Mirror.Download` (mirrors.go lines 327-334):
search, then download the first match; indexing `packages[0]` on an empty
slice would panic (`none`). -/
def Mirror.Download (m : Mirror) (fetch : Except String primaryData) (fs : FS)
    (af : Except String String) (destDir : String) (entry : PackageEntry) :
    Option (Except String String) :=
  match m.Search fetch entry with
  | none => none
  | some (.error e) => some (.error e)
  | some (.ok pkgs) =>
    match pkgs with
    | [] => none
    | p :: _ => m.downloadPackage fs af p destDir

/-- Embeds `SearchPackage` (mirrors.go lines 422-434): the mirror list
enters together with each mirror's fetch outcome. -/
def SearchPackage (mirrors : List (Mirror × Except String primaryData)) (entry : PackageEntry) :
    Option (Except String (List packageInfo)) :=
  match mirrors with
  | [] => some (.error (noSuchPackage entry))
  | (m, f) :: rest =>
    match m.search f entry with
    | none => none
    | some (.error e) => some (.error e)
    | some (.ok pkgs) =>
      if 0 < pkgs.length then some (.ok pkgs) else SearchPackage rest entry

/-- Embeds `DownloadPackage` (mirrors.go lines 406-418); `dl m p` stands
for `m.downloadPackage(p, destDir)` with its filesystem and artifact
effects bundled. -/
def DownloadPackage (mirrors : List (Mirror × Except String primaryData))
    (dl : Mirror → packageInfo → Option (Except String String)) (entry : PackageEntry) :
    Option (Except String String) :=
  match mirrors with
  | [] => some (.error (noSuchPackage entry))
  | (m, f) :: rest =>
    match m.search f entry with
    | none => none
    | some (.error e) => some (.error e)
    | some (.ok pkgs) =>
      match pkgs with
      | [] => DownloadPackage rest dl entry
      | p :: _ => dl m p

/-- Embeds `Mirror.getRepoMD` (mirrors.go lines 229-244).  `transport` is
the HTTP round trip; `parse` is `xml.Unmarshal` on the body.  The source
discards the value returned by `xml.Unmarshal`, so a decode failure
leaves the descriptor pointer nil (`none`) and the error result nil. -/
def getRepoMD (parse : String → Except String repoMD) (transport : Except String String) :
    Except String (Option repoMD) :=
  match transport with
  | .error e => .error e
  | .ok body =>
    match parse body with
    | .error _ => .ok none
    | .ok repo => .ok (some repo)

/-! ### Concrete fixtures used by witnesses and counterexamples -/

/-- A stable x86 mirror, as `GetMirror` builds it on an EL7 x86 host. -/
def m0 : Mirror :=
  { name := "OceanBase-community-stable-el7"
    url := "https://mirrors.oceanbase.com/oceanbase/community/stable/el/7/x86_64/"
    arch := "x86_64", nonLse := false }

/-- An AArch64 mirror on a host without LSE support, so `nonLse := true`. -/
def mA : Mirror :=
  { name := "OceanBase-community-stable-el7"
    url := "https://mirrors.oceanbase.com/oceanbase/community/stable/el/7/aarch64/"
    arch := "aarch64", nonLse := true }

/-- A name-only query. -/
def e0 : PackageEntry := { Name := "obshell", Flags := "", Epoch := "", Version := "", Release := "" }

/-- A query whose name is empty. -/
def eEmpty : PackageEntry := { Name := "", Flags := "", Epoch := "", Version := "", Release := "" }

/-- A capability-constrained query. -/
def eFlag : PackageEntry := { Name := "obshell", Flags := "EQ", Epoch := "", Version := "", Release := "" }

/-- The provides entry of the sample package. -/
def prov421 : PackageEntry := { Name := "obshell", Flags := "EQ", Epoch := "0", Version := "4.2.1", Release := "1.el7" }

/-- A sample index record matching `e0`. -/
def pkg421 : packageInfo :=
  { Name := "obshell", Arch := "x86_64"
    Version := { Epoch := "0", Version := "4.2.1", Release := "1.el7" }
    Location := { BaseUrl := "", Href := "obshell-4.2.1-1.el7.x86_64.rpm" }
    Format := { Provides := [prov421], Requires := [] } }

/-- A sample index record not matching `e0` by name. -/
def pkgOther : packageInfo :=
  { Name := "oblogproxy", Arch := "x86_64"
    Version := { Epoch := "0", Version := "2.0.0", Release := "1.el7" }
    Location := { BaseUrl := "", Href := "oblogproxy-2.0.0-1.el7.x86_64.rpm" }
    Format := { Provides := [], Requires := [] } }

/-- A record whose name matches but whose provides list is empty. -/
def pkgNoProv : packageInfo :=
  { Name := "obshell", Arch := "x86_64"
    Version := { Epoch := "0", Version := "4.2.1", Release := "1.el7" }
    Location := { BaseUrl := "", Href := "obshell-4.2.1-1.el7.x86_64.rpm" }
    Format := { Provides := [], Requires := [] } }

/-- An AArch64 record without the LSE marker in its release. -/
def pkgPlain : packageInfo :=
  { Name := "obshell", Arch := "aarch64"
    Version := { Epoch := "0", Version := "4.2.1", Release := "1.el7" }
    Location := { BaseUrl := "", Href := "obshell-4.2.1-1.el7.aarch64.rpm" }
    Format := { Provides := [], Requires := [] } }

/-- The same record built without LSE instructions: the marker occurs in
its release string, everything the first three rank keys see is tied. -/
def pkgNonLse : packageInfo :=
  { Name := "obshell", Arch := "aarch64"
    Version := { Epoch := "0", Version := "4.2.1", Release := "1.nonlse.el7" }
    Location := { BaseUrl := "", Href := "obshell-4.2.1-1.nonlse.el7.aarch64.rpm" }
    Format := { Provides := [], Requires := [] } }

/-- An index containing a hit and a miss. -/
def pd0 : primaryData := { Packages := [pkg421, pkgOther] }

/-- A successful fetch of `pd0`. -/
def fHit : Except String primaryData := .ok pd0

/-- A successful fetch of an index with no matching record. -/
def fMiss : Except String primaryData := .ok { Packages := [pkgOther] }

/-- A clean filesystem: the destination does not exist yet, creating and
writing succeed. -/
def fsOk : FS := { stat := (none, some .notExist), mkdirAll := none, write := none }

/-- A filesystem where the stat call fails with a non-not-exist error. -/
def fsBad : FS := { stat := (none, some (.other "input/output error")), mkdirAll := none, write := none }

/-- A successful artifact fetch. -/
def afOk : Except String String := .ok "rpm-bytes"

/-! ### Helper lemmas -/

/-- `matchEVR` succeeds exactly when each non-empty query field agrees. -/
theorem matchEVR_true_iff (entry : PackageEntry) (pkg : packageInfo) :
    matchEVR entry pkg = true ↔
      (entry.Epoch = "" ∨ entry.Epoch = pkg.Version.Epoch) ∧
      (entry.Version = "" ∨ entry.Version = pkg.Version.Version) ∧
      (entry.Release = "" ∨ entry.Release = pkg.Version.Release) := by
  unfold matchEVR
  split_ifs with h1 h2 h3 <;> simp <;> tauto

/-- `keepRecord` keeps a record exactly under the conjunction the spec
describes. -/
theorem keepRecord_some_true_iff (entry : PackageEntry) (pkg : packageInfo) :
    keepRecord entry pkg = some true ↔
      (pkg.Name = entry.Name ∧
       (entry.Flags = "" ∨ ∃ p0, pkg.Format.Provides.head? = some p0 ∧ entry.Flags = p0.Flags) ∧
       (entry.Epoch = "" ∨ entry.Epoch = pkg.Version.Epoch) ∧
       (entry.Version = "" ∨ entry.Version = pkg.Version.Version) ∧
       (entry.Release = "" ∨ entry.Release = pkg.Version.Release)) := by
  unfold keepRecord
  by_cases hn : pkg.Name = entry.Name
  · by_cases hf : entry.Flags = ""
    · simp [hn, hf, matchEVR_true_iff]
    · cases hp : pkg.Format.Provides.head? with
      | none => simp [hn, hf, hp]
      | some p0 =>
        by_cases hfe : entry.Flags = p0.Flags
        · simp [hn, hf, hp, hfe, matchEVR_true_iff]
        · simp [hn, hf, hp, hfe]
  · simp [hn]

/-- Membership in the filtered list is membership in the index together
with a kept verdict (provided no record panicked). -/
theorem filterPackages_mem (entry : PackageEntry) :
    ∀ (pkgs res : List packageInfo), filterPackages entry pkgs = some res →
      ∀ pkg, pkg ∈ res ↔ pkg ∈ pkgs ∧ keepRecord entry pkg = some true := by
  intro pkgs
  induction pkgs with
  | nil =>
    intro res h pkg
    simp only [filterPackages, Option.some.injEq] at h
    subst h
    simp
  | cons a t ih =>
    intro res h pkg
    simp only [filterPackages] at h
    cases hk : keepRecord entry a with
    | none => simp [hk] at h
    | some b =>
      simp only [hk] at h
      cases hf : filterPackages entry t with
      | none => simp [hf] at h
      | some tail =>
        simp only [hf, Option.some.injEq] at h
        subst h
        have hmem := ih tail hf pkg
        cases b with
        | false =>
          simp only [Bool.false_eq_true, if_false]
          constructor
          · intro hp
            have := hmem.mp hp
            exact ⟨List.mem_cons_of_mem _ this.1, this.2⟩
          · rintro ⟨hp, hkp⟩
            rcases List.mem_cons.mp hp with rfl | hp2
            · rw [hk] at hkp
              simp at hkp
            · exact hmem.mpr ⟨hp2, hkp⟩
        | true =>
          simp only [if_true]
          constructor
          · intro hp
            rcases List.mem_cons.mp hp with rfl | hp2
            · exact ⟨List.mem_cons_self _ _, hk⟩
            · have := hmem.mp hp2
              exact ⟨List.mem_cons_of_mem _ this.1, this.2⟩
          · rintro ⟨hp, hkp⟩
            rcases List.mem_cons.mp hp with rfl | hp2
            · exact List.mem_cons_self _ _
            · exact List.mem_cons_of_mem _ (hmem.mpr ⟨hp2, hkp⟩)

/-- Membership is preserved by insertion. -/
theorem mem_insertLe (le : α → α → Bool) (a x : α) :
    ∀ l : List α, x ∈ insertLe le a l ↔ x = a ∨ x ∈ l := by
  intro l
  induction l with
  | nil => simp [insertLe]
  | cons b t ih =>
    simp only [insertLe]
    split
    · simp
    · simp only [List.mem_cons, ih]
      tauto

/-- Membership is preserved by the comparison sort. -/
theorem mem_sortByLe (le : α → α → Bool) (x : α) :
    ∀ l : List α, x ∈ sortByLe le l ↔ x ∈ l := by
  intro l
  induction l with
  | nil => simp [sortByLe]
  | cons a t ih => simp [sortByLe, mem_insertLe, ih]

/-- A successful `Mirror.search` on a decoded index is the sorted filter
output. -/
theorem search_ok_elim (m : Mirror) (pd : primaryData) (entry : PackageEntry)
    (res : List packageInfo) (h : m.search (.ok pd) entry = some (.ok res)) :
    ∃ l, filterPackages entry pd.Packages = some l ∧ res = m.sortPackages l := by
  unfold Mirror.search at h
  by_cases hn : entry.Name = ""
  · simp [hn] at h
  · simp only [hn, if_false] at h
    cases hf : filterPackages entry pd.Packages with
    | none => simp [hf] at h
    | some l =>
      simp only [hf, Option.some.injEq, Except.ok.injEq] at h
      exact ⟨l, rfl, h.symm⟩

/-- C1: `Mirror.search` keeps a record iff the record's name equals the
query name, the query flag is empty or equals the flag of the record's
first provides entry, and each of epoch, version and release is empty in
the query or equal to the record's; consequently a query with only a name
constrains nothing else, and adding a version constraint never enlarges
the surviving set. -/
theorem search_filter_characterization (m : Mirror) (pd : primaryData) (entry : PackageEntry)
    (res : List packageInfo) (h : m.search (.ok pd) entry = some (.ok res)) :
    (∀ pkg : packageInfo, pkg ∈ res ↔ pkg ∈ pd.Packages ∧
      pkg.Name = entry.Name ∧
      (entry.Flags = "" ∨ ∃ p0, pkg.Format.Provides.head? = some p0 ∧ entry.Flags = p0.Flags) ∧
      (entry.Epoch = "" ∨ entry.Epoch = pkg.Version.Epoch) ∧
      (entry.Version = "" ∨ entry.Version = pkg.Version.Version) ∧
      (entry.Release = "" ∨ entry.Release = pkg.Version.Release)) ∧
    (entry.Version = "" → ∀ v res2,
      m.search (.ok pd) { entry with Version := v } = some (.ok res2) →
      ∀ pkg, pkg ∈ res2 → pkg ∈ res) := by
  obtain ⟨l, hf, hres⟩ := search_ok_elim m pd entry res h
  have hchar : ∀ pkg : packageInfo,
      pkg ∈ res ↔ pkg ∈ pd.Packages ∧ keepRecord entry pkg = some true := by
    intro pkg
    rw [hres, Mirror.sortPackages, mem_sortByLe]
    exact filterPackages_mem entry pd.Packages l hf pkg
  constructor
  · intro pkg
    rw [hchar pkg, keepRecord_some_true_iff]
  · intro hv v res2 h2 pkg hp2
    obtain ⟨l2, hf2, hres2⟩ := search_ok_elim m pd _ res2 h2
    have hchar2 : pkg ∈ res2 ↔ pkg ∈ pd.Packages ∧
        keepRecord { entry with Version := v } pkg = some true := by
      rw [hres2, Mirror.sortPackages, mem_sortByLe]
      exact filterPackages_mem _ pd.Packages l2 hf2 pkg
    have hkept := hchar2.mp hp2
    rw [keepRecord_some_true_iff] at hkept
    obtain ⟨hmem2, hname2, hflags2, hepoch2, _hver2, hrel2⟩ := hkept
    rw [hchar pkg, keepRecord_some_true_iff]
    exact ⟨hmem2, hname2, hflags2, hepoch2, Or.inl hv, hrel2⟩

/-- C1 witness: on the sample mirror, index and name-only query, the
hypotheses of the characterization hold and it evaluates as stated. -/
theorem search_filter_characterization_witness :
    m0.search (.ok pd0) e0 = some (.ok [pkg421]) ∧
    (pkg421 ∈ [pkg421] ↔ pkg421 ∈ pd0.Packages ∧ pkg421.Name = e0.Name ∧
      (e0.Flags = "" ∨ ∃ p0, pkg421.Format.Provides.head? = some p0 ∧ e0.Flags = p0.Flags) ∧
      (e0.Epoch = "" ∨ e0.Epoch = pkg421.Version.Epoch) ∧
      (e0.Version = "" ∨ e0.Version = pkg421.Version.Version) ∧
      (e0.Release = "" ∨ e0.Release = pkg421.Version.Release)) ∧
    pkg421 ∈ [pkg421] := by
  refine ⟨rfl, (search_filter_characterization m0 pd0 e0 [pkg421] rfl).1 pkg421, ?_⟩
  exact (search_filter_characterization m0 pd0 e0 [pkg421] rfl).2 rfl "4.2.1" [pkg421] rfl
    pkg421 (by simp)

/-- C2: the ranking relation driving `sortPackages` holds exactly along
the descending cascade epoch, then version, then the leading dot segment
of release, each compared by `CmpVersionString`; only when all three
compare equal does the LSE tie-break decide. -/
theorem sortPackages_rank_iff (m : Mirror) (p q : packageInfo) :
    m.sortLess p q = true ↔
      (0 < CmpVersionString p.Version.Epoch q.Version.Epoch ∨
        (CmpVersionString p.Version.Epoch q.Version.Epoch = 0 ∧
          (0 < CmpVersionString p.Version.Version q.Version.Version ∨
            (CmpVersionString p.Version.Version q.Version.Version = 0 ∧
              (0 < CmpVersionString (headSegment p.Version.Release) (headSegment q.Version.Release) ∨
                (CmpVersionString (headSegment p.Version.Release) (headSegment q.Version.Release) = 0 ∧
                  lseTieBreak m p q = true)))))) := by
  unfold Mirror.sortLess lseTieBreak
  by_cases h1 : CmpVersionString p.Version.Epoch q.Version.Epoch = 0
  · by_cases h2 : CmpVersionString p.Version.Version q.Version.Version = 0
    · by_cases h3 : CmpVersionString (headSegment p.Version.Release) (headSegment q.Version.Release) = 0
      · simp [h1, h2, h3]
      · simp [h1, h2, h3]
    · simp [h1, h2]
  · simp [h1]

/-- C3 counterexample: two records tied on epoch, version and leading
release segment, on a mirror with the non-LSE preference; the record
without the marker (index `-1`) does NOT sort first — the record whose
release contains the marker does. -/
theorem lse_tiebreak_counterexample :
    CmpVersionString pkgPlain.Version.Epoch pkgNonLse.Version.Epoch = 0 ∧
    CmpVersionString pkgPlain.Version.Version pkgNonLse.Version.Version = 0 ∧
    CmpVersionString (headSegment pkgPlain.Version.Release) (headSegment pkgNonLse.Version.Release) = 0 ∧
    mA.nonLse = true ∧
    strIndex pkgPlain.Version.Release NONLSE = -1 ∧
    strIndex pkgNonLse.Version.Release NONLSE = 2 ∧
    mA.sortLess pkgPlain pkgNonLse = false ∧
    mA.sortLess pkgNonLse pkgPlain = true :=
  ⟨rfl, rfl, rfl, rfl, rfl, rfl, rfl, rfl⟩

/-- C3 amended: on a full tie of the first three keys, a mirror with the
non-LSE preference puts the record whose LSE-marker occurrence index is
strictly larger first (an absent marker counts as index `-1` and so sorts
last — of two otherwise-equal records where exactly one contains the
marker, the one WITH the marker wins); on an AArch64 mirror without that
preference the strictly smaller index goes first (absent first); any
other mirror's comparison reports every tied pair as already in order. -/
theorem lse_tiebreak_amended (m : Mirror) (p q : packageInfo)
    (hE : CmpVersionString p.Version.Epoch q.Version.Epoch = 0)
    (hV : CmpVersionString p.Version.Version q.Version.Version = 0)
    (hR : CmpVersionString (headSegment p.Version.Release) (headSegment q.Version.Release) = 0) :
    (m.nonLse = true →
      m.sortLess p q =
        decide (strIndex q.Version.Release NONLSE < strIndex p.Version.Release NONLSE)) ∧
    (m.nonLse = false → m.arch = AARCH64 →
      m.sortLess p q =
        decide (strIndex p.Version.Release NONLSE < strIndex q.Version.Release NONLSE)) ∧
    (m.nonLse = false → m.arch ≠ AARCH64 → m.sortLess p q = true) := by
  refine ⟨?_, ?_, ?_⟩
  · intro h
    simp [Mirror.sortLess, hE, hV, hR, h]
  · intro h ha
    simp [Mirror.sortLess, hE, hV, hR, h, ha]
  · intro h ha
    simp [Mirror.sortLess, hE, hV, hR, h, ha]

/-- C3 witness: the amended tie-break evaluated on the tied AArch64 pair. -/
theorem lse_tiebreak_amended_witness :
    mA.sortLess pkgNonLse pkgPlain =
      decide (strIndex pkgPlain.Version.Release NONLSE < strIndex pkgNonLse.Version.Release NONLSE) :=
  (lse_tiebreak_amended mA pkgNonLse pkgPlain rfl rfl rfl).1 rfl

/-- C4: the multi-mirror search and download visit mirrors in list order;
an erroring mirror aborts the whole call with that error, an empty
no-error mirror passes to the next, the first non-empty ranked list (or
its download) is the result, and when every mirror yields empty without
error a "no such package" error comes back. -/
theorem mirror_fallback_order (entry : PackageEntry) (m : Mirror)
    (f : Except String primaryData) (rest : List (Mirror × Except String primaryData))
    (dl : Mirror → packageInfo → Option (Except String String)) :
    (∀ e, m.search f entry = some (.error e) →
      SearchPackage ((m, f) :: rest) entry = some (.error e) ∧
      DownloadPackage ((m, f) :: rest) dl entry = some (.error e)) ∧
    (m.search f entry = some (.ok []) →
      SearchPackage ((m, f) :: rest) entry = SearchPackage rest entry ∧
      DownloadPackage ((m, f) :: rest) dl entry = DownloadPackage rest dl entry) ∧
    (∀ p ps, m.search f entry = some (.ok (p :: ps)) →
      SearchPackage ((m, f) :: rest) entry = some (.ok (p :: ps)) ∧
      DownloadPackage ((m, f) :: rest) dl entry = dl m p) ∧
    (∀ ms : List (Mirror × Except String primaryData),
      (∀ x ∈ ms, Mirror.search x.1 x.2 entry = some (.ok [])) →
      SearchPackage ms entry = some (.error (noSuchPackage entry)) ∧
      DownloadPackage ms dl entry = some (.error (noSuchPackage entry))) := by
  refine ⟨?_, ?_, ?_, ?_⟩
  · intro e h
    exact ⟨by simp [SearchPackage, h], by simp [DownloadPackage, h]⟩
  · intro h
    exact ⟨by simp [SearchPackage, h], by simp [DownloadPackage, h]⟩
  · intro p ps h
    exact ⟨by simp [SearchPackage, h], by simp [DownloadPackage, h]⟩
  · intro ms hms
    induction ms with
    | nil => exact ⟨rfl, rfl⟩
    | cons x restx ih =>
      obtain ⟨m1, f1⟩ := x
      have hx := hms (m1, f1) (List.mem_cons_self _ _)
      have hih := ih (fun y hy => hms y (List.mem_cons_of_mem _ hy))
      exact ⟨by simp [SearchPackage, hx, hih.1], by simp [DownloadPackage, hx, hih.2]⟩

/-- C4 witness: a transport error on the first mirror aborts; an empty
first mirror falls through; a hit on the first mirror is final; all-empty
mirrors produce the not-found error. -/
theorem mirror_fallback_order_witness :
    (SearchPackage [(m0, .error "transport"), (m0, fHit)] e0 = some (.error "transport") ∧
      DownloadPackage [(m0, .error "transport"), (m0, fHit)] (fun _ _ => some (.ok "d")) e0 =
        some (.error "transport")) ∧
    SearchPackage [(m0, fMiss), (m0, fHit)] e0 = SearchPackage [(m0, fHit)] e0 ∧
    SearchPackage [(m0, fHit)] e0 = some (.ok [pkg421]) ∧
    SearchPackage [(m0, fMiss)] e0 = some (.error (noSuchPackage e0)) := by
  refine ⟨(mirror_fallback_order e0 m0 (.error "transport") [(m0, fHit)]
      (fun _ _ => some (.ok "d"))).1 "transport" rfl, ?_, ?_, ?_⟩
  · exact ((mirror_fallback_order e0 m0 fMiss [(m0, fHit)]
      (fun _ _ => some (.ok "d"))).2.1 rfl).1
  · exact ((mirror_fallback_order e0 m0 fHit []
      (fun _ _ => some (.ok "d"))).2.2.1 pkg421 [] rfl).1
  · refine ((mirror_fallback_order e0 m0 fMiss []
      (fun _ _ => some (.ok "d"))).2.2.2 [(m0, fMiss)] ?_).1
    intro x hx
    rw [List.mem_singleton] at hx
    subst hx
    rfl

/-- A successful exported `Mirror.Search` always carries a non-empty
list, and `Mirror.Download` then downloads exactly its head. -/
theorem Search_ok_shape (m : Mirror) (fetch : Except String primaryData) (entry : PackageEntry)
    (l : List packageInfo) (h : m.Search fetch entry = some (.ok l)) :
    ∃ p ps, l = p :: ps ∧ ∀ fs af destDir,
      m.Download fetch fs af destDir entry = m.downloadPackage fs af p destDir := by
  unfold Mirror.Search at h
  cases hs : m.search fetch entry with
  | none => simp [hs] at h
  | some r =>
    cases r with
    | error e => simp [hs] at h
    | ok l2 =>
      simp only [hs] at h
      by_cases hl : l2.length = 0
      · simp [hl] at h
      · simp only [hl, if_false, Option.some.injEq, Except.ok.injEq] at h
        subst h
        cases l2 with
        | nil => simp at hl
        | cons p ps =>
          refine ⟨p, ps, rfl, fun fs af destDir => ?_⟩
          have hS : m.Search fetch entry = some (.ok (p :: ps)) := by
            unfold Mirror.Search
            simp [hs, hl]
          simp [Mirror.Download, hS]

/-- C5: when the internal filter-and-rank yields an empty list without
error, `Mirror.Search` converts it into the descriptive not-found error;
a nil-error `Mirror.Search` result is therefore non-empty, and
`Mirror.Download` consumes exactly its first element. -/
theorem Search_nonempty_contract (m : Mirror) (fetch : Except String primaryData)
    (entry : PackageEntry) :
    (m.search fetch entry = some (.ok []) →
      m.Search fetch entry = some (.error (noSuchPackage entry))) ∧
    (∀ l, m.Search fetch entry = some (.ok l) → 0 < l.length) ∧
    (∀ l, m.Search fetch entry = some (.ok l) →
      ∃ p ps, l = p :: ps ∧ ∀ fs af destDir,
        m.Download fetch fs af destDir entry = m.downloadPackage fs af p destDir) := by
  refine ⟨?_, ?_, ?_⟩
  · intro h
    simp [Mirror.Search, h, noSuchPackage]
  · intro l h
    obtain ⟨p, ps, rfl, -⟩ := Search_ok_shape m fetch entry l h
    simp
  · intro l h
    exact Search_ok_shape m fetch entry l h

/-- C5 witness: evaluated on the sample mirror with a missing and a
present package. -/
theorem Search_nonempty_contract_witness :
    m0.Search fMiss e0 = some (.error (noSuchPackage e0)) ∧
    0 < ([pkg421] : List packageInfo).length ∧
    m0.Download fHit fsOk afOk "/tmp" e0 = m0.downloadPackage fsOk afOk pkg421 "/tmp" := by
  refine ⟨(Search_nonempty_contract m0 fMiss e0).1 rfl,
    (Search_nonempty_contract m0 fHit e0).2.1 [pkg421] rfl, ?_⟩
  obtain ⟨p, ps, hpp, hdl⟩ := (Search_nonempty_contract m0 fHit e0).2.2 [pkg421] rfl
  injection hpp with h1 h2
  subst h1
  exact hdl fsOk afOk "/tmp"

/-- C7 counterexample: with a relative destination directory,
`Mirror.Download` still consults the network first — a failing descriptor
or index fetch surfaces as that transport error, not as the
invalid-argument error the claim predicts; only once the search has
fetched and matched does the path check fire. -/
theorem download_relative_counterexample :
    m0.Download (.error "connection refused") fsOk afOk "relative/path" e0 =
      some (.error "connection refused") ∧
    m0.Download fHit fsOk afOk "relative/path" e0 =
      some (.error ("destination is not an absolute path: relative/path")) :=
  ⟨rfl, rfl⟩

/-- C7 amended: with a non-absolute destination directory,
`Mirror.Download` fails with the invalid-argument error before the
artifact fetch and before touching the filesystem (the result does not
depend on `fs` or `af`), but only after the search step's descriptor and
index fetches have succeeded with a match. -/
theorem download_relative_amended (m : Mirror) (fetch : Except String primaryData)
    (fs : FS) (af : Except String String) (destDir : String) (entry : PackageEntry)
    (l : List packageInfo)
    (habs : isAbs destDir = false)
    (hs : m.Search fetch entry = some (.ok l)) :
    m.Download fetch fs af destDir entry =
      some (.error ("destination is not an absolute path: " ++ destDir)) := by
  obtain ⟨p, ps, rfl, hdl⟩ := Search_ok_shape m fetch entry (l := _) hs
  rw [hdl fs af destDir]
  unfold Mirror.downloadPackage
  simp [habs]

/-- C7 witness: the amended statement evaluated on the sample mirror. -/
theorem download_relative_amended_witness :
    m0.Download fHit fsOk afOk "relative/path" e0 =
      some (.error ("destination is not an absolute path: " ++ "relative/path")) :=
  download_relative_amended m0 fHit fsOk afOk "relative/path" e0 [pkg421] rfl rfl

/-- An XML decoder that rejects its input, as `xml.Unmarshal` does on a
body that is not XML. -/
def parseFail : String → Except String repoMD := fun _ => .error "XML syntax error"

/-- C6: a descriptor body that fails to decode is NOT returned as an
error — `getRepoMD` discards the `xml.Unmarshal` result, so the call
reports success with a nil descriptor. -/
theorem getRepoMD_swallows_parse_error :
    parseFail "this is not xml" = .error "XML syntax error" ∧
    getRepoMD parseFail (.ok "this is not xml") = .ok none :=
  ⟨rfl, rfl⟩

/-- C8: a query with an empty name is rejected with "package name is
empty" by every entry point, for every fetch outcome whatsoever — in
particular before any descriptor or index fetch could matter. -/
theorem empty_name_rejected (entry : PackageEntry) (h : entry.Name = "")
    (m : Mirror) (f : Except String primaryData) (fs : FS) (af : Except String String)
    (destDir : String) (rest : List (Mirror × Except String primaryData))
    (dl : Mirror → packageInfo → Option (Except String String)) :
    m.search f entry = some (.error "package name is empty") ∧
    m.Search f entry = some (.error "package name is empty") ∧
    m.Download f fs af destDir entry = some (.error "package name is empty") ∧
    SearchPackage ((m, f) :: rest) entry = some (.error "package name is empty") ∧
    DownloadPackage ((m, f) :: rest) dl entry = some (.error "package name is empty") := by
  have hs : m.search f entry = some (.error "package name is empty") := by
    unfold Mirror.search
    simp [h]
  refine ⟨hs, ?_, ?_, ?_, ?_⟩
  · simp [Mirror.Search, hs]
  · simp [Mirror.Download, Mirror.Search, hs]
  · simp [SearchPackage, hs]
  · simp [DownloadPackage, hs]

/-- C8 witness: the empty-name query against the sample mirror with a
fetch that would fail — the rejection does not depend on it. -/
theorem empty_name_rejected_witness :
    m0.search (.error "dial tcp") eEmpty = some (.error "package name is empty") ∧
    m0.Search (.error "dial tcp") eEmpty = some (.error "package name is empty") ∧
    m0.Download (.error "dial tcp") fsOk afOk "/tmp" eEmpty =
      some (.error "package name is empty") ∧
    SearchPackage [(m0, .error "dial tcp")] eEmpty = some (.error "package name is empty") ∧
    DownloadPackage [(m0, .error "dial tcp")] (fun _ _ => some (.ok "d")) eEmpty =
      some (.error "package name is empty") :=
  empty_name_rejected eEmpty rfl m0 (.error "dial tcp") fsOk afOk "/tmp" []
    (fun _ _ => some (.ok "d"))

/-- A single panicking record poisons the whole filter loop. -/
theorem filterPackages_panics (entry : PackageEntry) :
    ∀ (pkgs : List packageInfo) (pkg : packageInfo), pkg ∈ pkgs →
      keepRecord entry pkg = none → filterPackages entry pkgs = none := by
  intro pkgs
  induction pkgs with
  | nil =>
    intro pkg h
    simp at h
  | cons a t ih =>
    intro pkg hmem hk
    rcases List.mem_cons.mp hmem with rfl | hmem2
    · simp [filterPackages, hk]
    · cases hka : keepRecord entry a with
      | none => simp [filterPackages, hka]
      | some b => simp [filterPackages, hka, ih pkg hmem2 hk]

/-- C9: `Mirror.search` is partial — a capability-constrained query
against an index holding a name-matching record with an empty provides
list makes the filter index element 0 of that empty list, a Go panic,
instead of skipping the record or returning an error. -/
theorem search_panics_on_empty_provides (m : Mirror) (pd : primaryData) (entry : PackageEntry)
    (pkg : packageInfo)
    (hname : entry.Name ≠ "")
    (hflag : entry.Flags ≠ "")
    (hmem : pkg ∈ pd.Packages)
    (hn : pkg.Name = entry.Name)
    (hprov : pkg.Format.Provides = []) :
    m.search (.ok pd) entry = none := by
  have hk : keepRecord entry pkg = none := by
    unfold keepRecord
    simp [hn, hflag, hprov]
  unfold Mirror.search
  simp [hname, filterPackages_panics entry pd.Packages pkg hmem hk]

/-- An index whose only record declares no capabilities. -/
def pdNoProv : primaryData := { Packages := [pkgNoProv] }

/-- C9 witness: the flagged query against the provides-less record. -/
theorem search_panics_on_empty_provides_witness :
    m0.search (.ok pdNoProv) eFlag = none :=
  search_panics_on_empty_provides m0 pdNoProv eFlag pkgNoProv (by decide) (by decide)
    (by simp [pdNoProv]) rfl rfl

/-- C10: when the stat on an existing destination fails with an error
other than not-exist, Go's convention leaves the file info nil, and
`downloadPackage` dereferences it (`stat.IsDir()`) before checking the
error — the call panics, and the branch returning the stat error cleanly
is unreachable. -/
theorem stat_error_branch_unreachable (m : Mirror) (fs : FS) (af : Except String String)
    (pkg : packageInfo) (destDir : String) (e : StatErr)
    (habs : isAbs destDir = true)
    (hstat : fs.stat = (none, some e))
    (hne : isNotExist (some e) = false) :
    m.downloadPackage fs af pkg destDir = none := by
  unfold Mirror.downloadPackage
  simp [habs, hstat, hne]

/-- C10 witness: an input/output error from the stat call. -/
theorem stat_error_branch_unreachable_witness :
    m0.downloadPackage fsBad afOk pkg421 "/data/pkgs" = none :=
  stat_error_branch_unreachable m0 fsBad afOk pkg421 "/data/pkgs"
    (.other "input/output error") rfl rfl rfl

end ObMirrors
